import Mathlib

/-!
Verification of the spider-size-simulator core model.

Shallow embedding of the model sources:
  src/model/modelConfig.ts   (configuration constants)
  src/model/calculations.ts  (scaling proxies, health, viability)
  src/model/failureModes.ts  (failure catalog and failure state machine)

JavaScript numbers are modelled as real numbers; `Math.pow` with a
fractional exponent is `Real.rpow`, `Math.pow(x, 3)` and `Math.pow(x, 2)`
are monoid powers, `Math.log10` is `Real.logb 10`, `Math.exp`/`Math.log`
are `Real.exp`/`Real.log`.  `Date.now()` is modelled as an explicit clock
argument `now` to `computeFailureState`.  A separate small model `JSNum`
captures the IEEE-754 special values (infinities and NaN) for the one
claim that is about NaN propagation, where the real-number model is too
coarse.
-/

namespace Spider

/-! ## modelConfig.ts -/

inductive ModelMode where
  | simple
  | extended
deriving DecidableEq

/-- Size slider range (SIZE_RANGE in modelConfig.ts). -/
structure SizeRange where
  min : ℝ
  max : ℝ

noncomputable def SIZE_RANGE : SizeRange := { min := 0.005, max := 3.0 }

/-- Scaling exponents and coefficients (SCALING_PARAMS in modelConfig.ts). -/
structure ScalingParams where
  respirationDiffusionK : ℝ
  hydraulicAlpha : ℝ
  hydraulicBetaSimple : ℝ
  hydraulicBetaExtended : ℝ
  exoskeletonPSimple : ℝ
  exoskeletonPExtended : ℝ
  locomotionGammaSimple : ℝ
  locomotionGammaExtended : ℝ

noncomputable def SCALING_PARAMS : ScalingParams :=
  { respirationDiffusionK := 0.15
    hydraulicAlpha := 0.65
    hydraulicBetaSimple := 0
    hydraulicBetaExtended := 0.3
    exoskeletonPSimple := 1.0
    exoskeletonPExtended := 1.3
    locomotionGammaSimple := 0.85
    locomotionGammaExtended := 1.1 }

/-- Health score mapping parameters (HEALTH_PARAMS in modelConfig.ts). -/
structure HealthParams where
  failureThreshold : ℝ
  sigmoidCritical : ℝ
  sigmoidSteepness : ℝ
  proxyMin : ℝ
  proxyMax : ℝ

noncomputable def HEALTH_PARAMS : HealthParams :=
  { failureThreshold := 0.3
    sigmoidCritical := 0.6
    sigmoidSteepness := 8
    proxyMin := 0
    proxyMax := 1.2 }

/-- Per-subsystem failure thresholds (FAILURE_THRESHOLDS in modelConfig.ts). -/
structure FailureThresholds where
  respiration : ℝ
  hydraulics : ℝ
  exoskeleton : ℝ
  locomotion : ℝ

noncomputable def FAILURE_THRESHOLDS : FailureThresholds :=
  { respiration := 0.35, hydraulics := 0.35, exoskeleton := 0.35, locomotion := 0.35 }

/-- Viability index weights (VIABILITY_WEIGHTS in modelConfig.ts). -/
structure ViabilityWeights where
  respiration : ℝ
  exoskeleton : ℝ
  hydraulics : ℝ
  locomotion : ℝ

noncomputable def VIABILITY_WEIGHTS : ViabilityWeights :=
  { respiration := 0.35, exoskeleton := 0.30, hydraulics := 0.20, locomotion := 0.15 }

/-- Display labels (FAILURE_LABELS in modelConfig.ts); content is presentation-only. -/
structure FailureLabels where
  respiration : String
  hydraulics : String
  exoskeleton : String
  locomotion : String

def FAILURE_LABELS : FailureLabels :=
  { respiration := "respiration-label"
    hydraulics := "hydraulics-label"
    exoskeleton := "exoskeleton-label"
    locomotion := "locomotion-label" }

/-! ## calculations.ts -/

structure ModelInput where
  bodyLength : ℝ
  baselineLength : ℝ
  o2Fraction : ℝ
  gravityMultiplier : ℝ
  mode : ModelMode

structure ScalingProxies where
  respiration : ℝ
  hydraulics : ℝ
  exoskeleton : ℝ
  locomotion : ℝ

structure HealthScores where
  respiration : ℝ
  hydraulics : ℝ
  exoskeleton : ℝ
  locomotion : ℝ

/-- The legacy per-subsystem boolean failure flag (interface FailureMode in
calculations.ts); `active` is a proposition since it compares reals. -/
structure FailureModeFlag where
  key : String
  label : String
  active : Prop

structure ModelOutput where
  scaleFactor : ℝ
  mass : ℝ
  surfaceArea : ℝ
  weightFactor : ℝ
  proxies : ScalingProxies
  health : HealthScores
  failureModes : List FailureModeFlag
  viabilityIndex : ℝ

/-- Clamp a value between min and max: Math.max(min, Math.min(max, value)). -/
noncomputable def clamp (value min max : ℝ) : ℝ :=
  Max.max min (Min.min max value)

/-- Sigmoid function for extended mode health mapping. -/
noncomputable def sigmoid (x steepness critical : ℝ) : ℝ :=
  1 / (1 + Real.exp (-steepness * (x - critical)))

/-- Respiration capacity proxy: (O2frac/0.21) * (1/s), in extended mode
multiplied by 1/(1 + k*(s-1)). -/
noncomputable def calcRespirationProxy (scaleFactor o2Fraction : ℝ) (mode : ModelMode) : ℝ :=
  let baseCapacity := (o2Fraction / 0.21) * (1 / scaleFactor)
  match mode with
  | .extended =>
      baseCapacity * (1 / (1 + SCALING_PARAMS.respirationDiffusionK * (scaleFactor - 1)))
  | .simple => baseCapacity

/-- Hydraulic actuation proxy: s^beta / W^alpha. -/
noncomputable def calcHydraulicsProxy (scaleFactor weightFactor : ℝ) (mode : ModelMode) : ℝ :=
  let beta := match mode with
    | .simple => SCALING_PARAMS.hydraulicBetaSimple
    | .extended => SCALING_PARAMS.hydraulicBetaExtended
  let alpha := SCALING_PARAMS.hydraulicAlpha
  scaleFactor ^ beta / weightFactor ^ alpha

/-- Exoskeleton structural proxy: 1 / (s^p * gMult). -/
noncomputable def calcExoskeletonProxy (scaleFactor gravityMultiplier : ℝ) (mode : ModelMode) : ℝ :=
  let p := match mode with
    | .simple => SCALING_PARAMS.exoskeletonPSimple
    | .extended => SCALING_PARAMS.exoskeletonPExtended
  1 / (scaleFactor ^ p * gravityMultiplier)

/-- Locomotion proxy: 1 / (s^gamma * gMult). -/
noncomputable def calcLocomotionProxy (scaleFactor gravityMultiplier : ℝ) (mode : ModelMode) : ℝ :=
  let gamma := match mode with
    | .simple => SCALING_PARAMS.locomotionGammaSimple
    | .extended => SCALING_PARAMS.locomotionGammaExtended
  1 / (scaleFactor ^ gamma * gravityMultiplier)

/-- Convert a proxy value to a health score (0-100). -/
noncomputable def proxyToHealth (proxy : ℝ) (mode : ModelMode) : ℝ :=
  let clampedProxy := clamp proxy HEALTH_PARAMS.proxyMin HEALTH_PARAMS.proxyMax
  match mode with
  | .simple =>
      let normalized := (clampedProxy - HEALTH_PARAMS.failureThreshold) /
        (1 - HEALTH_PARAMS.failureThreshold)
      100 * clamp normalized 0 1
  | .extended =>
      100 * sigmoid clampedProxy HEALTH_PARAMS.sigmoidSteepness HEALTH_PARAMS.sigmoidCritical

/-- Viability index: 100 * exp( sum of wi * ln(health_i/100 + eps) ). -/
noncomputable def calcViabilityIndex (health : HealthScores) : ℝ :=
  let eps : ℝ := 1e-6
  let logSum :=
    VIABILITY_WEIGHTS.respiration * Real.log (health.respiration / 100 + eps) +
    VIABILITY_WEIGHTS.exoskeleton * Real.log (health.exoskeleton / 100 + eps) +
    VIABILITY_WEIGHTS.hydraulics * Real.log (health.hydraulics / 100 + eps) +
    VIABILITY_WEIGHTS.locomotion * Real.log (health.locomotion / 100 + eps)
  100 * Real.exp logSum

/-- Determine active failure modes (legacy boolean flags). -/
noncomputable def getFailureModes (proxies : ScalingProxies) : List FailureModeFlag :=
  [ { key := "respiration", label := FAILURE_LABELS.respiration,
      active := proxies.respiration < FAILURE_THRESHOLDS.respiration }
  , { key := "hydraulics", label := FAILURE_LABELS.hydraulics,
      active := proxies.hydraulics < FAILURE_THRESHOLDS.hydraulics }
  , { key := "exoskeleton", label := FAILURE_LABELS.exoskeleton,
      active := proxies.exoskeleton < FAILURE_THRESHOLDS.exoskeleton }
  , { key := "locomotion", label := FAILURE_LABELS.locomotion,
      active := proxies.locomotion < FAILURE_THRESHOLDS.locomotion } ]

/-- Main model computation function. -/
noncomputable def computeModel (input : ModelInput) : ModelOutput :=
  let scaleFactor := input.bodyLength / input.baselineLength
  let mass := scaleFactor ^ (3 : ℕ)
  let surfaceArea := scaleFactor ^ (2 : ℕ)
  let weightFactor := mass * input.gravityMultiplier
  let proxies : ScalingProxies :=
    { respiration := calcRespirationProxy scaleFactor input.o2Fraction input.mode
      hydraulics := calcHydraulicsProxy scaleFactor weightFactor input.mode
      exoskeleton := calcExoskeletonProxy scaleFactor input.gravityMultiplier input.mode
      locomotion := calcLocomotionProxy scaleFactor input.gravityMultiplier input.mode }
  let health : HealthScores :=
    { respiration := proxyToHealth proxies.respiration input.mode
      hydraulics := proxyToHealth proxies.hydraulics input.mode
      exoskeleton := proxyToHealth proxies.exoskeleton input.mode
      locomotion := proxyToHealth proxies.locomotion input.mode }
  { scaleFactor := scaleFactor
    mass := mass
    surfaceArea := surfaceArea
    weightFactor := weightFactor
    proxies := proxies
    health := health
    failureModes := getFailureModes proxies
    viabilityIndex := calcViabilityIndex health }

/-- Generate log-spaced size array for chart plotting (real-number model;
see `generateSizeArrayJS` below for the IEEE special-value model). -/
noncomputable def generateSizeArray (min max : ℝ) (count : ℕ) : List ℝ :=
  let logMin := Real.logb 10 min
  let logMax := Real.logb 10 max
  let step := (logMax - logMin) / ((count : ℝ) - 1)
  (List.range count).map (fun (i : ℕ) => (10 : ℝ) ^ (logMin + (i : ℝ) * step))

/-- Compute model outputs for an array of sizes (for charts). -/
noncomputable def computeModelArray (sizes : List ℝ) (baselineLength o2Fraction gravityMultiplier : ℝ)
    (mode : ModelMode) : List ModelOutput :=
  sizes.map (fun size =>
    computeModel
      { bodyLength := size
        baselineLength := baselineLength
        o2Fraction := o2Fraction
        gravityMultiplier := gravityMultiplier
        mode := mode })

/-! ## failureModes.ts -/

inductive FailureSeverity where
  | soft
  | hard
  | catastrophic
deriving DecidableEq

inductive Subsystem where
  | respiration
  | hydraulics
  | exoskeleton
  | locomotion
deriving DecidableEq

/-- Failure mode definition.  The purely descriptive presentation fields of
the source record (shortDescription, longDescription, visualCueConfig,
recoveryHint) are omitted; the core-semantic fields are kept. -/
structure FailureModeDefinition where
  id : String
  subsystem : Subsystem
  severity : FailureSeverity
  title : String
  proxyThreshold : ℝ
  stressThreshold : ℝ

structure FailureEvent where
  failureId : String
  triggeredAtSize : ℝ
  triggeredAtScale : ℝ
  timestamp : ℕ
  isActive : Bool
  isResolved : Bool
  isIrreversible : Bool

structure FailureState where
  activeFailures : List FailureEvent
  newlyTriggeredFailures : List FailureEvent
  failureHistory : List FailureEvent

noncomputable def OXYGEN_DIFFUSION_FAILURE : FailureModeDefinition :=
  { id := "OXYGEN_DIFFUSION_FAILURE"
    subsystem := .respiration
    severity := .catastrophic
    title := "Oxygen Diffusion Collapse"
    proxyThreshold := 0.35
    stressThreshold := 0.6 }

noncomputable def HYDRAULIC_EXTENSION_FAILURE : FailureModeDefinition :=
  { id := "HYDRAULIC_EXTENSION_FAILURE"
    subsystem := .hydraulics
    severity := .hard
    title := "Hydraulic Leg Extension Failure"
    proxyThreshold := 0.35
    stressThreshold := 0.6 }

noncomputable def EXOSKELETON_BUCKLING_FAILURE : FailureModeDefinition :=
  { id := "EXOSKELETON_BUCKLING_FAILURE"
    subsystem := .exoskeleton
    severity := .catastrophic
    title := "Exoskeleton Structural Collapse"
    proxyThreshold := 0.35
    stressThreshold := 0.6 }

noncomputable def LOCOMOTION_ENERGY_FAILURE : FailureModeDefinition :=
  { id := "LOCOMOTION_ENERGY_FAILURE"
    subsystem := .locomotion
    severity := .hard
    title := "Locomotion Energy Deficit"
    proxyThreshold := 0.35
    stressThreshold := 0.6 }

/-- The FAILURE_MODES record, as an ordered association list (JavaScript
object key insertion order, which Object.entries preserves). -/
noncomputable def FAILURE_MODES_LIST : List (String × FailureModeDefinition) :=
  [ ("OXYGEN_DIFFUSION_FAILURE", OXYGEN_DIFFUSION_FAILURE)
  , ("HYDRAULIC_EXTENSION_FAILURE", HYDRAULIC_EXTENSION_FAILURE)
  , ("EXOSKELETON_BUCKLING_FAILURE", EXOSKELETON_BUCKLING_FAILURE)
  , ("LOCOMOTION_ENERGY_FAILURE", LOCOMOTION_ENERGY_FAILURE) ]

/-- FAILURE_MODES[id] property access (undefined modelled as none). -/
noncomputable def FAILURE_MODES (id : String) : Option FailureModeDefinition :=
  (FAILURE_MODES_LIST.find? (fun p => p.1 == id)).map (fun p => p.2)

/-- Get failure mode definition by ID. -/
noncomputable def getFailureMode (id : String) : Option FailureModeDefinition :=
  FAILURE_MODES id

/-- Check if a specific proxy value has crossed the failure threshold. -/
def isProxyInFailure (proxyValue threshold : ℝ) : Prop :=
  proxyValue < threshold

/-- Check if a proxy is in stress state (but not yet failed). -/
def isProxyStressed (proxyValue stressThreshold failureThreshold : ℝ) : Prop :=
  proxyValue < stressThreshold ∧ failureThreshold ≤ proxyValue

open Classical in
/-- Detect all active failures based on current model state. -/
noncomputable def detectFailures (proxies : ScalingProxies) : List String :=
  (if isProxyInFailure proxies.respiration OXYGEN_DIFFUSION_FAILURE.proxyThreshold
    then ["OXYGEN_DIFFUSION_FAILURE"] else []) ++
  (if isProxyInFailure proxies.hydraulics HYDRAULIC_EXTENSION_FAILURE.proxyThreshold
    then ["HYDRAULIC_EXTENSION_FAILURE"] else []) ++
  (if isProxyInFailure proxies.exoskeleton EXOSKELETON_BUCKLING_FAILURE.proxyThreshold
    then ["EXOSKELETON_BUCKLING_FAILURE"] else []) ++
  (if isProxyInFailure proxies.locomotion LOCOMOTION_ENERGY_FAILURE.proxyThreshold
    then ["LOCOMOTION_ENERGY_FAILURE"] else [])

/-- Whether the catalog severity of an id equals a given severity, as in the
optional-chaining test failureMode?.severity === sev (undefined gives false). -/
noncomputable def severityIs (id : String) (sev : FailureSeverity) : Bool :=
  match FAILURE_MODES id with
  | some failureMode => failureMode.severity = sev
  | none => false

/-- The FailureEvent created for a newly triggered failureId. -/
noncomputable def mkFailureEvent (failureId : String) (currentSize currentScale : ℝ)
    (now : ℕ) : FailureEvent :=
  { failureId := failureId
    triggeredAtSize := currentSize
    triggeredAtScale := currentScale
    timestamp := now
    isActive := true
    isResolved := false
    isIrreversible := severityIs failureId .catastrophic }

/-- The resolution pass over the updated history: an active failure whose id
is no longer current resolves only when its catalog severity is soft; hard
and catastrophic failures remain active (latched). -/
noncomputable def resolveFailure (currentFailureIds : List String) (failure : FailureEvent) :
    FailureEvent :=
  if failure.isActive && !(currentFailureIds.contains failure.failureId) &&
      severityIs failure.failureId .soft
  then { failure with isActive := false, isResolved := true }
  else failure

/-- Compute failure state by comparing current failures with previous state.
Date.now() is the explicit argument now. -/
noncomputable def computeFailureState (currentFailureIds : List String)
    (previousFailureHistory : List FailureEvent)
    (currentSize currentScale : ℝ) (now : ℕ) : FailureState :=
  let previousActiveIds :=
    (previousFailureHistory.filter (fun f => f.isActive)).map (fun f => f.failureId)
  let newlyTriggeredFailures :=
    (currentFailureIds.filter (fun failureId => !(previousActiveIds.contains failureId))).map
      (fun failureId => mkFailureEvent failureId currentSize currentScale now)
  let updatedHistory := previousFailureHistory ++ newlyTriggeredFailures
  let failureHistory := updatedHistory.map (resolveFailure currentFailureIds)
  { activeFailures := failureHistory.filter (fun f => f.isActive || f.isIrreversible)
    newlyTriggeredFailures := newlyTriggeredFailures
    failureHistory := failureHistory }

/-- Failure point information for chart markers. -/
structure FailurePoint where
  failureId : String
  sizeAtFailure : ℝ
  subsystem : Subsystem
  severity : FailureSeverity
  title : String

/-- Dynamic access modelOutputs[i].proxies[subsystem]. -/
def ScalingProxies.bySubsystem (proxies : ScalingProxies) : Subsystem → ℝ
  | .respiration => proxies.respiration
  | .hydraulics => proxies.hydraulics
  | .exoskeleton => proxies.exoskeleton
  | .locomotion => proxies.locomotion

open Classical in
/-- The scan loop of findFailurePoint: first index (counting from i) whose
output has the subsystem proxy strictly below the threshold. -/
noncomputable def scanForFailure (threshold : ℝ) (subsystem : Subsystem) :
    List ModelOutput → ℕ → Option ℕ
  | [], _ => none
  | output :: rest, i =>
      if output.proxies.bySubsystem subsystem < threshold then some i
      else scanForFailure threshold subsystem rest (i + 1)

/-- Find the exact size at which a failure would trigger (used for chart
markers).  At every call site sizes and modelOutputs have equal length, so
the getD default is never read. -/
noncomputable def findFailurePoint (modelOutputs : List ModelOutput) (sizes : List ℝ)
    (failureId : String) : Option (ℝ × ℕ) :=
  match FAILURE_MODES failureId with
  | none => none
  | some failureMode =>
      match scanForFailure failureMode.proxyThreshold failureMode.subsystem modelOutputs 0 with
      | none => none
      | some i => some (sizes.getD i 0, i)

open Classical in
/-- Get all failure points for chart visualization. -/
noncomputable def getAllFailurePoints (baselineLength o2Fraction gravityMultiplier : ℝ)
    (mode : ModelMode) : List FailurePoint :=
  let sizes := generateSizeArray SIZE_RANGE.min SIZE_RANGE.max 100
  let modelOutputs := computeModelArray sizes baselineLength o2Fraction gravityMultiplier mode
  let failurePoints := FAILURE_MODES_LIST.filterMap (fun entry =>
    match findFailurePoint modelOutputs sizes entry.1 with
    | none => none
    | some point =>
        some { failureId := entry.1
               sizeAtFailure := point.1
               subsystem := entry.2.subsystem
               severity := entry.2.severity
               title := entry.2.title })
  failurePoints.mergeSort (fun a b => a.sizeAtFailure ≤ b.sizeAtFailure)

/-! ## Session harness

The App component keeps the failure history in component state and feeds it
back into computeFailureState on every evaluation.  A session is modelled as
a fold of computeFailureState over a list of evaluation inputs. -/

/-- One evaluation tick of a session: the detected failure ids, the current
size and scale, and the clock reading. -/
structure EvalInput where
  ids : List String
  size : ℝ
  scale : ℝ
  now : ℕ

/-- The failure history after running a sequence of evaluations on top of an
initial history. -/
noncomputable def runFailureHistory (init : List FailureEvent) (steps : List EvalInput) :
    List FailureEvent :=
  steps.foldl
    (fun history step =>
      (computeFailureState step.ids history step.size step.scale step.now).failureHistory)
    init

/-- Erase the clock-dependent field of an event (for stating determinism of
computeFailureState up to Date.now()). -/
def FailureEvent.clearTimestamp (e : FailureEvent) : FailureEvent :=
  { e with timestamp := 0 }

/-- Erase every clock-dependent field of a FailureState. -/
def FailureState.clearTimestamps (s : FailureState) : FailureState :=
  { activeFailures := s.activeFailures.map FailureEvent.clearTimestamp
    newlyTriggeredFailures := s.newlyTriggeredFailures.map FailureEvent.clearTimestamp
    failureHistory := s.failureHistory.map FailureEvent.clearTimestamp }

/-! ## IEEE special-value model

The real-number model above totalizes division by zero as zero, which is
faithful everywhere the source stays within finite values, but hides the
JavaScript behaviour of generateSizeArray when count == 1: the step
computation divides a positive finite number by zero (giving Infinity) and
0 * Infinity is NaN.  JSNum models a JavaScript number as either a finite
real or one of the special values Infinity, -Infinity, NaN, with the
IEEE-754 rules for the operations generateSizeArray performs.  Rounding of
finite values is not modelled (irrelevant to special-value propagation). -/

inductive JSNum where
  | finite (x : ℝ)
  | inf
  | neginf
  | nan

namespace JSNum

open Classical in
/-- IEEE addition on special values. -/
noncomputable def add : JSNum → JSNum → JSNum
  | nan, _ => nan
  | _, nan => nan
  | inf, neginf => nan
  | neginf, inf => nan
  | inf, _ => inf
  | _, inf => inf
  | neginf, _ => neginf
  | _, neginf => neginf
  | finite a, finite b => finite (a + b)

open Classical in
/-- IEEE subtraction on special values. -/
noncomputable def sub : JSNum → JSNum → JSNum
  | nan, _ => nan
  | _, nan => nan
  | inf, inf => nan
  | neginf, neginf => nan
  | inf, _ => inf
  | neginf, _ => neginf
  | _, inf => neginf
  | _, neginf => inf
  | finite a, finite b => finite (a - b)

open Classical in
/-- IEEE multiplication on special values: zero times an infinity is NaN. -/
noncomputable def mul : JSNum → JSNum → JSNum
  | nan, _ => nan
  | _, nan => nan
  | inf, inf => inf
  | inf, neginf => neginf
  | neginf, inf => neginf
  | neginf, neginf => inf
  | inf, finite b => if b = 0 then nan else if 0 < b then inf else neginf
  | finite a, inf => if a = 0 then nan else if 0 < a then inf else neginf
  | neginf, finite b => if b = 0 then nan else if 0 < b then neginf else inf
  | finite a, neginf => if a = 0 then nan else if 0 < a then neginf else inf
  | finite a, finite b => finite (a * b)

open Classical in
/-- IEEE division on special values: a nonzero finite divided by zero is a
signed infinity, zero divided by zero is NaN. -/
noncomputable def div : JSNum → JSNum → JSNum
  | nan, _ => nan
  | _, nan => nan
  | inf, inf => nan
  | inf, neginf => nan
  | neginf, inf => nan
  | neginf, neginf => nan
  | inf, finite b => if 0 ≤ b then inf else neginf
  | neginf, finite b => if 0 ≤ b then neginf else inf
  | finite _, inf => finite 0
  | finite _, neginf => finite 0
  | finite a, finite b =>
      if b = 0 then (if a = 0 then nan else if 0 < a then inf else neginf)
      else finite (a / b)

open Classical in
/-- Math.log10 on a JavaScript number. -/
noncomputable def log10 : JSNum → JSNum
  | nan => nan
  | inf => inf
  | neginf => nan
  | finite x => if 0 < x then finite (Real.logb 10 x) else if x = 0 then neginf else nan

/-- Math.pow(10, y) on a JavaScript number. -/
noncomputable def pow10 : JSNum → JSNum
  | nan => nan
  | inf => inf
  | neginf => finite 0
  | finite y => finite ((10 : ℝ) ^ y)

end JSNum

/-- generateSizeArray over the IEEE special-value model, for finite positive
endpoints: same computation as generateSizeArray, element for element. -/
noncomputable def generateSizeArrayJS (min max : ℝ) (count : ℕ) : List JSNum :=
  let logMin := JSNum.log10 (JSNum.finite min)
  let logMax := JSNum.log10 (JSNum.finite max)
  let step := JSNum.div (JSNum.sub logMax logMin) (JSNum.finite ((count : ℝ) - 1))
  (List.range count).map
    (fun (i : ℕ) => JSNum.pow10 (JSNum.add logMin (JSNum.mul (JSNum.finite (i : ℝ)) step)))

/-! ## Helper lemmas on the failure state machine -/

/-- Every catalog entry is one of the four shipped definitions. -/
theorem FAILURE_MODES_cases (id : String) (fm : FailureModeDefinition)
    (h : FAILURE_MODES id = some fm) :
    fm = OXYGEN_DIFFUSION_FAILURE ∨ fm = HYDRAULIC_EXTENSION_FAILURE ∨
    fm = EXOSKELETON_BUCKLING_FAILURE ∨ fm = LOCOMOTION_ENERGY_FAILURE := by
  unfold FAILURE_MODES at h
  rcases hfind : FAILURE_MODES_LIST.find? (fun p => p.1 == id) with _ | p
  · rw [hfind] at h
    simp at h
  · rw [hfind] at h
    simp only [Option.map_some', Option.some.injEq] at h
    have hmem := List.mem_of_find?_eq_some hfind
    unfold FAILURE_MODES_LIST at hmem
    simp only [List.mem_cons, List.not_mem_nil, or_false] at hmem
    rcases hmem with h1 | h1 | h1 | h1 <;> subst h1 <;> simp at h <;>
      first
      | exact Or.inl h.symm
      | exact Or.inr (Or.inl h.symm)
      | exact Or.inr (Or.inr (Or.inl h.symm))
      | exact Or.inr (Or.inr (Or.inr h.symm))

/-- No shipped failure mode has severity soft. -/
theorem severity_ne_soft (id : String) (fm : FailureModeDefinition)
    (h : FAILURE_MODES id = some fm) : fm.severity ≠ .soft := by
  rcases FAILURE_MODES_cases id fm h with h1 | h1 | h1 | h1 <;> subst h1 <;>
    simp [OXYGEN_DIFFUSION_FAILURE, HYDRAULIC_EXTENSION_FAILURE,
      EXOSKELETON_BUCKLING_FAILURE, LOCOMOTION_ENERGY_FAILURE]

theorem severityIs_soft_false (id : String) : severityIs id .soft = false := by
  unfold severityIs
  rcases h : FAILURE_MODES id with _ | fm
  · rfl
  · exact decide_eq_false (severity_ne_soft id fm h)

/-- With the shipped catalog the resolution pass never changes an event. -/
theorem resolveFailure_eq_self (ids : List String) (e : FailureEvent) :
    resolveFailure ids e = e := by
  unfold resolveFailure
  rw [severityIs_soft_false]
  simp

theorem failureHistory_eq_append (ids : List String) (hist : List FailureEvent)
    (size scale : ℝ) (now : ℕ) :
    (computeFailureState ids hist size scale now).failureHistory =
      hist ++ (computeFailureState ids hist size scale now).newlyTriggeredFailures := by
  show (hist ++ _).map (resolveFailure ids) = _
  rw [show resolveFailure ids = id from funext (resolveFailure_eq_self ids), List.map_id]
  rfl

theorem newlyTriggered_eq (ids : List String) (hist : List FailureEvent)
    (size scale : ℝ) (now : ℕ) :
    (computeFailureState ids hist size scale now).newlyTriggeredFailures =
      (ids.filter (fun failureId =>
        !(((hist.filter (fun f => f.isActive)).map (fun f => f.failureId)).contains failureId))).map
        (fun failureId => mkFailureEvent failureId size scale now) := rfl

theorem runFailureHistory_nil (init : List FailureEvent) :
    runFailureHistory init [] = init := rfl

theorem runFailureHistory_cons (init : List FailureEvent) (s : EvalInput)
    (rest : List EvalInput) :
    runFailureHistory init (s :: rest) =
      runFailureHistory ((computeFailureState s.ids init s.size s.scale s.now).failureHistory)
        rest := rfl

/-- Events already in the history are preserved verbatim at their position by
every later evaluation (this catalog has no soft mode, so nothing mutates). -/
theorem run_getElem_stable (steps : List EvalInput) :
    ∀ (init : List FailureEvent) (i : ℕ) (e : FailureEvent),
      init[i]? = some e → (runFailureHistory init steps)[i]? = some e := by
  induction steps with
  | nil => intro init i e h; rw [runFailureHistory_nil]; exact h
  | cons s rest ih =>
      intro init i e h
      rw [runFailureHistory_cons]
      apply ih
      rw [failureHistory_eq_append]
      rw [List.getElem?_append_left (List.getElem?_eq_some_iff.mp h).1]
      exact h

theorem length_le_run (steps : List EvalInput) :
    ∀ init : List FailureEvent, init.length ≤ (runFailureHistory init steps).length := by
  induction steps with
  | nil => intro init; rw [runFailureHistory_nil]
  | cons s rest ih =>
      intro init
      rw [runFailureHistory_cons]
      calc init.length
          ≤ (computeFailureState s.ids init s.size s.scale s.now).failureHistory.length := by
            rw [failureHistory_eq_append, List.length_append]
            exact Nat.le_add_right _ _
        _ ≤ _ := ih _

/-- Events of any history reachable from a history of active, unresolved
events stay active and unresolved. -/
theorem run_invariant (steps : List EvalInput) :
    ∀ init : List FailureEvent,
      (∀ e ∈ init, e.isActive = true ∧ e.isResolved = false) →
      ∀ e ∈ runFailureHistory init steps, e.isActive = true ∧ e.isResolved = false := by
  induction steps with
  | nil => intro init h e he; rw [runFailureHistory_nil] at he; exact h e he
  | cons s rest ih =>
      intro init h e he
      rw [runFailureHistory_cons] at he
      refine ih _ ?_ e he
      intro f hf
      rw [failureHistory_eq_append] at hf
      rcases List.mem_append.mp hf with hmem | hmem
      · exact h f hmem
      · rw [newlyTriggered_eq] at hmem
        rcases List.mem_map.mp hmem with ⟨id, _, rfl⟩
        exact ⟨rfl, rfl⟩

/-! ## Helper lemmas on the scaling math -/

/-- Simple-mode proxyToHealth written out as nested clamps. -/
theorem proxyToHealth_simple_eq (p : ℝ) :
    proxyToHealth p .simple =
      100 * Max.max 0 (Min.min 1 ((Max.max 0 (Min.min 1.2 p) - 0.3) / (1 - 0.3))) := by
  simp [proxyToHealth, clamp, HEALTH_PARAMS]

/-- The viability index is 100 times an exponential, hence strictly positive
for every health record. -/
theorem calcViabilityIndex_pos (h : HealthScores) : 0 < calcViabilityIndex h := by
  unfold calcViabilityIndex
  positivity

theorem clearTimestamp_mk (id : String) (s c : ℝ) (n : ℕ) :
    FailureEvent.clearTimestamp (mkFailureEvent id s c n) = mkFailureEvent id s c 0 := rfl

theorem newly_map_clear (ids : List String) (hist : List FailureEvent)
    (size scale : ℝ) (now : ℕ) :
    (computeFailureState ids hist size scale now).newlyTriggeredFailures.map
        FailureEvent.clearTimestamp =
      (ids.filter (fun failureId =>
        !(((hist.filter (fun f => f.isActive)).map (fun f => f.failureId)).contains failureId))).map
        (fun failureId => mkFailureEvent failureId size scale 0) := by
  rw [newlyTriggered_eq, List.map_map]
  apply List.map_congr_left
  intro a _
  rfl

theorem newly_filter_active (ids : List String) (hist : List FailureEvent)
    (size scale : ℝ) (now : ℕ) :
    (computeFailureState ids hist size scale now).newlyTriggeredFailures.filter
        (fun f => f.isActive || f.isIrreversible) =
      (computeFailureState ids hist size scale now).newlyTriggeredFailures := by
  rw [newlyTriggered_eq]
  apply List.filter_eq_self.mpr
  intro a ha
  rcases List.mem_map.mp ha with ⟨id, _, rfl⟩
  rfl

theorem activeFailures_eq (ids : List String) (hist : List FailureEvent)
    (size scale : ℝ) (now : ℕ) :
    (computeFailureState ids hist size scale now).activeFailures =
      (computeFailureState ids hist size scale now).failureHistory.filter
        (fun f => f.isActive || f.isIrreversible) := rfl

/-- Respiration proxy is strictly decreasing in the scale factor (both modes). -/
theorem resp_mono (o2 : ℝ) (ho : 0 < o2) (s1 s2 : ℝ) (h1 : 0 < s1) (h12 : s1 < s2)
    (mode : ModelMode) :
    calcRespirationProxy s2 o2 mode < calcRespirationProxy s1 o2 mode := by
  have hc : 0 < o2 / 0.21 := by positivity
  cases mode with
  | simple =>
      show o2 / 0.21 * (1 / s2) < o2 / 0.21 * (1 / s1)
      exact mul_lt_mul_of_pos_left (one_div_lt_one_div_of_lt h1 h12) hc
  | extended =>
      show o2 / 0.21 * (1 / s2) * (1 / (1 + SCALING_PARAMS.respirationDiffusionK * (s2 - 1))) <
        o2 / 0.21 * (1 / s1) * (1 / (1 + SCALING_PARAMS.respirationDiffusionK * (s1 - 1)))
      have hk : SCALING_PARAMS.respirationDiffusionK = 0.15 := rfl
      rw [hk]
      have hd1 : (0:ℝ) < 1 + 0.15 * (s1 - 1) := by nlinarith
      have key : s1 * (1 + 0.15 * (s1 - 1)) < s2 * (1 + 0.15 * (s2 - 1)) := by nlinarith
      have e : ∀ s d : ℝ, o2 / 0.21 * (1 / s) * (1 / d) = o2 / 0.21 * (1 / (s * d)) := by
        intro s d
        ring
      rw [e s1 _, e s2 _]
      refine mul_lt_mul_of_pos_left ?_ hc
      exact one_div_lt_one_div_of_lt (by positivity) key

/-- The ratio s ^ beta / (s^3 * g) ^ 0.65 is strictly decreasing in s on the
positive reals whenever beta < 1.95 (the flattened exponent is negative). -/
theorem rpow_ratio_anti (g beta : ℝ) (hg : 0 < g) (hb : beta < 1.95) (s1 s2 : ℝ)
    (h1 : 0 < s1) (h12 : s1 < s2) :
    s2 ^ beta / (s2 ^ (3:ℕ) * g) ^ (0.65:ℝ) < s1 ^ beta / (s1 ^ (3:ℕ) * g) ^ (0.65:ℝ) := by
  have h2 : 0 < s2 := h1.trans h12
  have flat : ∀ x : ℝ, 0 < x →
      x ^ beta / (x ^ (3:ℕ) * g) ^ (0.65:ℝ) = x ^ (beta - 1.95) / g ^ (0.65:ℝ) := by
    intro x hx
    rw [Real.mul_rpow (by positivity) hg.le, ← Real.rpow_natCast x 3, ← Real.rpow_mul hx.le,
      show ((3:ℕ):ℝ) * 0.65 = 1.95 by norm_num, div_mul_eq_div_div, ← Real.rpow_sub hx]
  rw [flat s1 h1, flat s2 h2]
  refine div_lt_div_of_pos_right ?_ (Real.rpow_pos_of_pos hg _)
  have hrw : ∀ x : ℝ, 0 < x → x ^ (beta - 1.95) = (x ^ (1.95 - beta))⁻¹ := by
    intro x hx
    rw [show beta - 1.95 = -(1.95 - beta) by ring, Real.rpow_neg hx.le]
  rw [hrw s1 h1, hrw s2 h2]
  exact inv_lt_inv_of_lt (Real.rpow_pos_of_pos h1 _) (Real.rpow_lt_rpow h1.le h12 (by linarith))

/-- Hydraulics proxy at weight s^3 * g is strictly decreasing in s (both modes). -/
theorem hyd_mono (g s1 s2 : ℝ) (hg : 0 < g) (h1 : 0 < s1) (h12 : s1 < s2) (mode : ModelMode) :
    calcHydraulicsProxy s2 (s2 ^ (3:ℕ) * g) mode < calcHydraulicsProxy s1 (s1 ^ (3:ℕ) * g) mode := by
  cases mode with
  | simple =>
      show s2 ^ SCALING_PARAMS.hydraulicBetaSimple /
          (s2 ^ (3:ℕ) * g) ^ SCALING_PARAMS.hydraulicAlpha <
        s1 ^ SCALING_PARAMS.hydraulicBetaSimple /
          (s1 ^ (3:ℕ) * g) ^ SCALING_PARAMS.hydraulicAlpha
      exact rpow_ratio_anti g _ hg (by norm_num [SCALING_PARAMS]) s1 s2 h1 h12
  | extended =>
      show s2 ^ SCALING_PARAMS.hydraulicBetaExtended /
          (s2 ^ (3:ℕ) * g) ^ SCALING_PARAMS.hydraulicAlpha <
        s1 ^ SCALING_PARAMS.hydraulicBetaExtended /
          (s1 ^ (3:ℕ) * g) ^ SCALING_PARAMS.hydraulicAlpha
      exact rpow_ratio_anti g _ hg (by norm_num [SCALING_PARAMS]) s1 s2 h1 h12

theorem inv_rpow_mul_anti (g p : ℝ) (hg : 0 < g) (hp : 0 < p) (s1 s2 : ℝ)
    (h1 : 0 < s1) (h12 : s1 < s2) :
    1 / (s2 ^ p * g) < 1 / (s1 ^ p * g) := by
  have hb : s1 ^ p < s2 ^ p := Real.rpow_lt_rpow h1.le h12 hp
  have hpos : 0 < s1 ^ p * g := mul_pos (Real.rpow_pos_of_pos h1 _) hg
  exact one_div_lt_one_div_of_lt hpos (mul_lt_mul_of_pos_right hb hg)

/-- Exoskeleton proxy is strictly decreasing in the scale factor (both modes). -/
theorem exo_mono (g s1 s2 : ℝ) (hg : 0 < g) (h1 : 0 < s1) (h12 : s1 < s2) (mode : ModelMode) :
    calcExoskeletonProxy s2 g mode < calcExoskeletonProxy s1 g mode := by
  cases mode with
  | simple =>
      show 1 / (s2 ^ SCALING_PARAMS.exoskeletonPSimple * g) <
        1 / (s1 ^ SCALING_PARAMS.exoskeletonPSimple * g)
      exact inv_rpow_mul_anti g _ hg (by norm_num [SCALING_PARAMS]) s1 s2 h1 h12
  | extended =>
      show 1 / (s2 ^ SCALING_PARAMS.exoskeletonPExtended * g) <
        1 / (s1 ^ SCALING_PARAMS.exoskeletonPExtended * g)
      exact inv_rpow_mul_anti g _ hg (by norm_num [SCALING_PARAMS]) s1 s2 h1 h12

/-- Locomotion proxy is strictly decreasing in the scale factor (both modes). -/
theorem loco_mono (g s1 s2 : ℝ) (hg : 0 < g) (h1 : 0 < s1) (h12 : s1 < s2) (mode : ModelMode) :
    calcLocomotionProxy s2 g mode < calcLocomotionProxy s1 g mode := by
  cases mode with
  | simple =>
      show 1 / (s2 ^ SCALING_PARAMS.locomotionGammaSimple * g) <
        1 / (s1 ^ SCALING_PARAMS.locomotionGammaSimple * g)
      exact inv_rpow_mul_anti g _ hg (by norm_num [SCALING_PARAMS]) s1 s2 h1 h12
  | extended =>
      show 1 / (s2 ^ SCALING_PARAMS.locomotionGammaExtended * g) <
        1 / (s1 ^ SCALING_PARAMS.locomotionGammaExtended * g)
      exact inv_rpow_mul_anti g _ hg (by norm_num [SCALING_PARAMS]) s1 s2 h1 h12

/-! ## Helper lemmas for the failure-point sweep -/

/-- Unfolding equation for getAllFailurePoints. -/
theorem getAllFailurePoints_def (b o2 g : ℝ) (mode : ModelMode) :
    getAllFailurePoints b o2 g mode =
      (FAILURE_MODES_LIST.filterMap (fun entry =>
        match findFailurePoint
            (computeModelArray (generateSizeArray SIZE_RANGE.min SIZE_RANGE.max 100) b o2 g mode)
            (generateSizeArray SIZE_RANGE.min SIZE_RANGE.max 100) entry.1 with
        | none => none
        | some point =>
            some { failureId := entry.1
                   sizeAtFailure := point.1
                   subsystem := entry.2.subsystem
                   severity := entry.2.severity
                   title := entry.2.title })).mergeSort
        (fun a c => a.sizeAtFailure ≤ c.sizeAtFailure) := rfl

/-- The scan loop only looks at the selected proxy, so two subsystems with
pointwise equal proxies over the output list scan identically. -/
theorem scan_congr (t : ℝ) (sub1 sub2 : Subsystem) (l : List ModelOutput)
    (h : ∀ o ∈ l, o.proxies.bySubsystem sub1 = o.proxies.bySubsystem sub2) :
    ∀ i : ℕ, scanForFailure t sub1 l i = scanForFailure t sub2 l i := by
  induction l with
  | nil => intro i; rfl
  | cons o rest ih =>
      intro i
      have hhead := h o (List.mem_cons_self o rest)
      simp only [scanForFailure]
      rw [hhead]
      by_cases hc : o.proxies.bySubsystem sub2 < t
      · rw [if_pos hc, if_pos hc]
      · rw [if_neg hc, if_neg hc]
        exact ih (fun x hx => h x (List.mem_cons_of_mem o hx)) (i + 1)

/-- If some output is below threshold, the scan loop finds an index. -/
theorem scan_exists (t : ℝ) (sub : Subsystem) (l : List ModelOutput)
    (h : ∃ o ∈ l, o.proxies.bySubsystem sub < t) :
    ∀ i : ℕ, ∃ j : ℕ, scanForFailure t sub l i = some j := by
  induction l with
  | nil => rcases h with ⟨o, ho, _⟩; exact absurd ho (List.not_mem_nil o)
  | cons o rest ih =>
      intro i
      by_cases hc : o.proxies.bySubsystem sub < t
      · exact ⟨i, by simp only [scanForFailure]; rw [if_pos hc]⟩
      · rcases h with ⟨x, hx, hxt⟩
        rcases List.mem_cons.mp hx with rfl | hx2
        · exact absurd hxt hc
        · rcases ih ⟨x, hx2, hxt⟩ (i + 1) with ⟨j, hj⟩
          exact ⟨j, by simp only [scanForFailure]; rw [if_neg hc]; exact hj⟩

/-- In simple mode at o2Fraction 0.21 and gravity 1 the exoskeleton proxy
coincides with the respiration proxy (both are 1/s). -/
theorem resp_eq_exo_proxy (L b : ℝ) :
    (computeModel ⟨L, b, 0.21, 1, .simple⟩).proxies.exoskeleton =
      (computeModel ⟨L, b, 0.21, 1, .simple⟩).proxies.respiration := by
  show 1 / ((L / b) ^ SCALING_PARAMS.exoskeletonPSimple * 1) = 0.21 / 0.21 * (1 / (L / b))
  rw [show SCALING_PARAMS.exoskeletonPSimple = (1:ℝ) by norm_num [SCALING_PARAMS],
    Real.rpow_one]
  norm_num

/-- The top of the size range is the last element of the swept size array. -/
theorem max_mem_sizes : SIZE_RANGE.max ∈ generateSizeArray SIZE_RANGE.min SIZE_RANGE.max 100 := by
  unfold generateSizeArray
  refine List.mem_map.mpr ⟨99, List.mem_range.mpr (by norm_num), ?_⟩
  have hexp : Real.logb 10 SIZE_RANGE.min +
      ((99:ℕ):ℝ) * ((Real.logb 10 SIZE_RANGE.max - Real.logb 10 SIZE_RANGE.min) /
        (((100:ℕ):ℝ) - 1)) = Real.logb 10 SIZE_RANGE.max := by
    push_cast
    field_simp
    ring
  rw [hexp]
  exact Real.rpow_logb (by norm_num) (by norm_num) (by norm_num [SIZE_RANGE])

theorem outs_resp_exists :
    ∃ o ∈ computeModelArray (generateSizeArray SIZE_RANGE.min SIZE_RANGE.max 100)
        0.008 0.21 1 .simple,
      o.proxies.bySubsystem .respiration < 0.35 := by
  refine ⟨computeModel ⟨SIZE_RANGE.max, 0.008, 0.21, 1, .simple⟩,
    List.mem_map.mpr ⟨SIZE_RANGE.max, max_mem_sizes, rfl⟩, ?_⟩
  show 0.21 / 0.21 * (1 / (SIZE_RANGE.max / 0.008)) < 0.35
  norm_num [SIZE_RANGE]

theorem outs_hyd_exists :
    ∃ o ∈ computeModelArray (generateSizeArray SIZE_RANGE.min SIZE_RANGE.max 100)
        0.008 0.21 1 .simple,
      o.proxies.bySubsystem .hydraulics < 0.35 := by
  refine ⟨computeModel ⟨SIZE_RANGE.max, 0.008, 0.21, 1, .simple⟩,
    List.mem_map.mpr ⟨SIZE_RANGE.max, max_mem_sizes, rfl⟩, ?_⟩
  show (SIZE_RANGE.max / 0.008) ^ SCALING_PARAMS.hydraulicBetaSimple /
      ((SIZE_RANGE.max / 0.008) ^ (3:ℕ) * 1) ^ SCALING_PARAMS.hydraulicAlpha < 0.35
  rw [show SIZE_RANGE.max / 0.008 = (375:ℝ) by norm_num [SIZE_RANGE],
    show SCALING_PARAMS.hydraulicBetaSimple = (0:ℝ) from rfl,
    show SCALING_PARAMS.hydraulicAlpha = (0.65:ℝ) from rfl,
    Real.rpow_zero, mul_one]
  have h1 : (((375:ℝ) ^ (3:ℕ)) : ℝ) ^ ((1:ℝ)/3) ≤ ((375:ℝ) ^ (3:ℕ)) ^ (0.65:ℝ) :=
    Real.rpow_le_rpow_of_exponent_le (by norm_num) (by norm_num)
  have h2 : (((375:ℝ) ^ (3:ℕ)) : ℝ) ^ ((1:ℝ)/3) = 375 := by
    rw [← Real.rpow_natCast (375:ℝ) 3, ← Real.rpow_mul (by norm_num : (0:ℝ) ≤ 375)]
    norm_num
  have hX : (375:ℝ) ≤ ((375:ℝ) ^ (3:ℕ)) ^ (0.65:ℝ) := le_of_eq h2.symm |>.trans h1
  have hd : (1:ℝ) / ((375:ℝ) ^ (3:ℕ)) ^ (0.65:ℝ) ≤ 1 / 375 :=
    one_div_le_one_div_of_le (by norm_num) hX
  linarith

theorem outs_loco_exists :
    ∃ o ∈ computeModelArray (generateSizeArray SIZE_RANGE.min SIZE_RANGE.max 100)
        0.008 0.21 1 .simple,
      o.proxies.bySubsystem .locomotion < 0.35 := by
  refine ⟨computeModel ⟨SIZE_RANGE.max, 0.008, 0.21, 1, .simple⟩,
    List.mem_map.mpr ⟨SIZE_RANGE.max, max_mem_sizes, rfl⟩, ?_⟩
  show 1 / ((SIZE_RANGE.max / 0.008) ^ SCALING_PARAMS.locomotionGammaSimple * 1) < 0.35
  rw [show SIZE_RANGE.max / 0.008 = (375:ℝ) by norm_num [SIZE_RANGE],
    show SCALING_PARAMS.locomotionGammaSimple = (0.85:ℝ) from rfl, mul_one]
  have h1 : (375:ℝ) ^ ((1:ℝ)/2) ≤ (375:ℝ) ^ (0.85:ℝ) :=
    Real.rpow_le_rpow_of_exponent_le (by norm_num) (by norm_num)
  have h2 : (3:ℝ) ≤ (375:ℝ) ^ ((1:ℝ)/2) := by
    rw [show ((1:ℝ)/2) = (1/2 : ℝ) from rfl, ← Real.sqrt_eq_rpow]
    exact (Real.le_sqrt (by norm_num) (by norm_num)).mpr (by norm_num)
  have hX : (3:ℝ) ≤ (375:ℝ) ^ (0.85:ℝ) := h2.trans h1
  have hd : (1:ℝ) / (375:ℝ) ^ (0.85:ℝ) ≤ 1 / 3 := one_div_le_one_div_of_le (by norm_num) hX
  linarith

theorem FAILURE_MODES_oxy :
    FAILURE_MODES "OXYGEN_DIFFUSION_FAILURE" = some OXYGEN_DIFFUSION_FAILURE := by
  simp [FAILURE_MODES, FAILURE_MODES_LIST, List.find?]

theorem FAILURE_MODES_hyd :
    FAILURE_MODES "HYDRAULIC_EXTENSION_FAILURE" = some HYDRAULIC_EXTENSION_FAILURE := by
  simp [FAILURE_MODES, FAILURE_MODES_LIST, List.find?]

theorem FAILURE_MODES_exo :
    FAILURE_MODES "EXOSKELETON_BUCKLING_FAILURE" = some EXOSKELETON_BUCKLING_FAILURE := by
  simp [FAILURE_MODES, FAILURE_MODES_LIST, List.find?]

theorem FAILURE_MODES_loco :
    FAILURE_MODES "LOCOMOTION_ENERGY_FAILURE" = some LOCOMOTION_ENERGY_FAILURE := by
  simp [FAILURE_MODES, FAILURE_MODES_LIST, List.find?]

/-- Under the default parameters (baseline 0.008 m, o2 0.21, gravity 1,
simple mode) all four failure points exist, and the respiration and
exoskeleton points are found at the same swept index i0, hence at the same
size. -/
theorem getAllFailurePoints_default_perm :
    ∃ i0 i1 i2 : ℕ,
      (getAllFailurePoints 0.008 0.21 1 .simple).Perm
        [ { failureId := "OXYGEN_DIFFUSION_FAILURE"
            sizeAtFailure := (generateSizeArray SIZE_RANGE.min SIZE_RANGE.max 100).getD i0 0
            subsystem := OXYGEN_DIFFUSION_FAILURE.subsystem
            severity := OXYGEN_DIFFUSION_FAILURE.severity
            title := OXYGEN_DIFFUSION_FAILURE.title }
        , { failureId := "HYDRAULIC_EXTENSION_FAILURE"
            sizeAtFailure := (generateSizeArray SIZE_RANGE.min SIZE_RANGE.max 100).getD i1 0
            subsystem := HYDRAULIC_EXTENSION_FAILURE.subsystem
            severity := HYDRAULIC_EXTENSION_FAILURE.severity
            title := HYDRAULIC_EXTENSION_FAILURE.title }
        , { failureId := "EXOSKELETON_BUCKLING_FAILURE"
            sizeAtFailure := (generateSizeArray SIZE_RANGE.min SIZE_RANGE.max 100).getD i0 0
            subsystem := EXOSKELETON_BUCKLING_FAILURE.subsystem
            severity := EXOSKELETON_BUCKLING_FAILURE.severity
            title := EXOSKELETON_BUCKLING_FAILURE.title }
        , { failureId := "LOCOMOTION_ENERGY_FAILURE"
            sizeAtFailure := (generateSizeArray SIZE_RANGE.min SIZE_RANGE.max 100).getD i2 0
            subsystem := LOCOMOTION_ENERGY_FAILURE.subsystem
            severity := LOCOMOTION_ENERGY_FAILURE.severity
            title := LOCOMOTION_ENERGY_FAILURE.title } ] := by
  obtain ⟨i0, hs0⟩ := scan_exists 0.35 .respiration
    (computeModelArray (generateSizeArray SIZE_RANGE.min SIZE_RANGE.max 100) 0.008 0.21 1 .simple)
    outs_resp_exists 0
  obtain ⟨i1, hs1⟩ := scan_exists 0.35 .hydraulics
    (computeModelArray (generateSizeArray SIZE_RANGE.min SIZE_RANGE.max 100) 0.008 0.21 1 .simple)
    outs_hyd_exists 0
  obtain ⟨i2, hs2⟩ := scan_exists 0.35 .locomotion
    (computeModelArray (generateSizeArray SIZE_RANGE.min SIZE_RANGE.max 100) 0.008 0.21 1 .simple)
    outs_loco_exists 0
  have hcong : scanForFailure 0.35 .exoskeleton
      (computeModelArray (generateSizeArray SIZE_RANGE.min SIZE_RANGE.max 100)
        0.008 0.21 1 .simple) 0 =
      scanForFailure 0.35 .respiration
      (computeModelArray (generateSizeArray SIZE_RANGE.min SIZE_RANGE.max 100)
        0.008 0.21 1 .simple) 0 := by
    refine scan_congr 0.35 .exoskeleton .respiration _ ?_ 0
    intro o ho
    rcases List.mem_map.mp ho with ⟨L, _, rfl⟩
    exact resp_eq_exo_proxy L 0.008
  have hsE : scanForFailure 0.35 .exoskeleton
      (computeModelArray (generateSizeArray SIZE_RANGE.min SIZE_RANGE.max 100)
        0.008 0.21 1 .simple) 0 = some i0 := hcong.trans hs0
  have hfO : findFailurePoint
      (computeModelArray (generateSizeArray SIZE_RANGE.min SIZE_RANGE.max 100) 0.008 0.21 1 .simple)
      (generateSizeArray SIZE_RANGE.min SIZE_RANGE.max 100) "OXYGEN_DIFFUSION_FAILURE" =
      some ((generateSizeArray SIZE_RANGE.min SIZE_RANGE.max 100).getD i0 0, i0) := by
    unfold findFailurePoint
    rw [FAILURE_MODES_oxy]
    show (match scanForFailure OXYGEN_DIFFUSION_FAILURE.proxyThreshold
        OXYGEN_DIFFUSION_FAILURE.subsystem
        (computeModelArray (generateSizeArray SIZE_RANGE.min SIZE_RANGE.max 100)
          0.008 0.21 1 .simple) 0 with
      | none => none
      | some i => some ((generateSizeArray SIZE_RANGE.min SIZE_RANGE.max 100).getD i 0, i)) = _
    rw [show OXYGEN_DIFFUSION_FAILURE.proxyThreshold = (0.35:ℝ) from rfl,
      show OXYGEN_DIFFUSION_FAILURE.subsystem = Subsystem.respiration from rfl, hs0]
  have hfH : findFailurePoint
      (computeModelArray (generateSizeArray SIZE_RANGE.min SIZE_RANGE.max 100) 0.008 0.21 1 .simple)
      (generateSizeArray SIZE_RANGE.min SIZE_RANGE.max 100) "HYDRAULIC_EXTENSION_FAILURE" =
      some ((generateSizeArray SIZE_RANGE.min SIZE_RANGE.max 100).getD i1 0, i1) := by
    unfold findFailurePoint
    rw [FAILURE_MODES_hyd]
    show (match scanForFailure HYDRAULIC_EXTENSION_FAILURE.proxyThreshold
        HYDRAULIC_EXTENSION_FAILURE.subsystem
        (computeModelArray (generateSizeArray SIZE_RANGE.min SIZE_RANGE.max 100)
          0.008 0.21 1 .simple) 0 with
      | none => none
      | some i => some ((generateSizeArray SIZE_RANGE.min SIZE_RANGE.max 100).getD i 0, i)) = _
    rw [show HYDRAULIC_EXTENSION_FAILURE.proxyThreshold = (0.35:ℝ) from rfl,
      show HYDRAULIC_EXTENSION_FAILURE.subsystem = Subsystem.hydraulics from rfl, hs1]
  have hfE : findFailurePoint
      (computeModelArray (generateSizeArray SIZE_RANGE.min SIZE_RANGE.max 100) 0.008 0.21 1 .simple)
      (generateSizeArray SIZE_RANGE.min SIZE_RANGE.max 100) "EXOSKELETON_BUCKLING_FAILURE" =
      some ((generateSizeArray SIZE_RANGE.min SIZE_RANGE.max 100).getD i0 0, i0) := by
    unfold findFailurePoint
    rw [FAILURE_MODES_exo]
    show (match scanForFailure EXOSKELETON_BUCKLING_FAILURE.proxyThreshold
        EXOSKELETON_BUCKLING_FAILURE.subsystem
        (computeModelArray (generateSizeArray SIZE_RANGE.min SIZE_RANGE.max 100)
          0.008 0.21 1 .simple) 0 with
      | none => none
      | some i => some ((generateSizeArray SIZE_RANGE.min SIZE_RANGE.max 100).getD i 0, i)) = _
    rw [show EXOSKELETON_BUCKLING_FAILURE.proxyThreshold = (0.35:ℝ) from rfl,
      show EXOSKELETON_BUCKLING_FAILURE.subsystem = Subsystem.exoskeleton from rfl, hsE]
  have hfL : findFailurePoint
      (computeModelArray (generateSizeArray SIZE_RANGE.min SIZE_RANGE.max 100) 0.008 0.21 1 .simple)
      (generateSizeArray SIZE_RANGE.min SIZE_RANGE.max 100) "LOCOMOTION_ENERGY_FAILURE" =
      some ((generateSizeArray SIZE_RANGE.min SIZE_RANGE.max 100).getD i2 0, i2) := by
    unfold findFailurePoint
    rw [FAILURE_MODES_loco]
    show (match scanForFailure LOCOMOTION_ENERGY_FAILURE.proxyThreshold
        LOCOMOTION_ENERGY_FAILURE.subsystem
        (computeModelArray (generateSizeArray SIZE_RANGE.min SIZE_RANGE.max 100)
          0.008 0.21 1 .simple) 0 with
      | none => none
      | some i => some ((generateSizeArray SIZE_RANGE.min SIZE_RANGE.max 100).getD i 0, i)) = _
    rw [show LOCOMOTION_ENERGY_FAILURE.proxyThreshold = (0.35:ℝ) from rfl,
      show LOCOMOTION_ENERGY_FAILURE.subsystem = Subsystem.locomotion from rfl, hs2]
  refine ⟨i0, i1, i2, ?_⟩
  rw [getAllFailurePoints_def]
  refine List.Perm.trans (List.mergeSort_perm _ _) ?_
  simp only [FAILURE_MODES_LIST, List.filterMap_cons, List.filterMap_nil, hfO, hfH, hfE, hfL]
  exact List.Perm.refl _

/-- getAllFailurePoints always returns a list sorted (non-strictly) by
sizeAtFailure, for any parameters. -/
theorem getAllFailurePoints_sorted (b o2 g : ℝ) (mode : ModelMode) :
    List.Pairwise (fun a c : FailurePoint => a.sizeAtFailure ≤ c.sizeAtFailure)
      (getAllFailurePoints b o2 g mode) := by
  rw [getAllFailurePoints_def]
  refine List.Pairwise.imp ?_ (List.sorted_mergeSort ?_ ?_ _)
  · intro a c h
    simpa using h
  · intro a c e hab hbc
    simp only [decide_eq_true_eq] at hab hbc ⊢
    exact le_trans hab hbc
  · intro a c
    simp only [Bool.or_eq_true, decide_eq_true_eq]
    exact le_total _ _

/-! ## Claims -/

/-- Claim C1 (failure latching): over any session (a fold of
computeFailureState evaluations), an active event whose catalog severity is
hard or catastrophic stays active in the history returned by every
subsequent call, even when its failureId is no longer current; an active
event of a soft mode whose failureId is absent from currentFailureIds would
resolve within that call (with the shipped catalog no id has soft severity,
so the second conjunct holds vacuously — see claim C9). -/
theorem C1_failure_latching :
    (∀ (init : List FailureEvent) (steps : List EvalInput) (i : ℕ) (e : FailureEvent),
        init[i]? = some e →
        (severityIs e.failureId .hard = true ∨ severityIs e.failureId .catastrophic = true) →
        e.isActive = true →
        ∃ e2, (runFailureHistory init steps)[i]? = some e2 ∧ e2.isActive = true) ∧
    (∀ (ids : List String) (hist : List FailureEvent) (size scale : ℝ) (now : ℕ)
        (i : ℕ) (e : FailureEvent),
        hist[i]? = some e → e.isActive = true →
        severityIs e.failureId .soft = true →
        ids.contains e.failureId = false →
        ∃ e2, (computeFailureState ids hist size scale now).failureHistory[i]? = some e2 ∧
          e2.isResolved = true ∧ e2.isActive = false) := by
  constructor
  · intro init steps i e h _ hact
    exact ⟨e, run_getElem_stable steps init i e h, hact⟩
  · intro ids hist size scale now i e _ _ hsoft _
    rw [severityIs_soft_false] at hsoft
    exact absurd hsoft (by simp)

/-- Witness for C1: a catastrophic event created at size 1 is still active
after a later evaluation in which its proxy has recovered (empty id list). -/
theorem C1_failure_latching_witness :
    ∃ e2, (runFailureHistory [mkFailureEvent "OXYGEN_DIFFUSION_FAILURE" 1 1 0]
        [{ ids := [], size := 2, scale := 2, now := 5 }])[0]? = some e2 ∧
      e2.isActive = true :=
  C1_failure_latching.1 [mkFailureEvent "OXYGEN_DIFFUSION_FAILURE" 1 1 0]
    [{ ids := [], size := 2, scale := 2, now := 5 }] 0
    (mkFailureEvent "OXYGEN_DIFFUSION_FAILURE" 1 1 0) rfl
    (Or.inr (by simp [severityIs, mkFailureEvent, FAILURE_MODES, FAILURE_MODES_LIST,
      List.find?, OXYGEN_DIFFUSION_FAILURE]))
    rfl

/-- Claim C2, counterexample: the claim says an unknown failureId is
silently skipped with no event in the returned history, but
computeFailureState does create an event for it (the catalog lookup is only
used for the severity fields, via optional chaining). -/
theorem C2_catalog_miss_counterexample :
    FAILURE_MODES "UNKNOWN_FAILURE" = none ∧
    (computeFailureState ["UNKNOWN_FAILURE"] [] 1 1 0).failureHistory =
      [mkFailureEvent "UNKNOWN_FAILURE" 1 1 0] ∧
    (mkFailureEvent "UNKNOWN_FAILURE" 1 1 0).failureId = "UNKNOWN_FAILURE" := by
  have hnone : FAILURE_MODES "UNKNOWN_FAILURE" = none := by
    simp [FAILURE_MODES, FAILURE_MODES_LIST, List.find?]
  refine ⟨hnone, ?_, rfl⟩
  rw [failureHistory_eq_append, newlyTriggered_eq]
  simp

/-- Claim C2 as amended: no exception is raised on a catalog miss;
findFailurePoint does skip an unknown id (returns none), but
computeFailureState creates an event for it, with isIrreversible == false
(and the event latches, since the missing severity is not soft). -/
theorem C2_catalog_miss_amended (id : String) (hnone : FAILURE_MODES id = none) :
    (∀ (modelOutputs : List ModelOutput) (sizes : List ℝ),
        findFailurePoint modelOutputs sizes id = none) ∧
    (∀ (size scale : ℝ) (now : ℕ),
        (computeFailureState [id] [] size scale now).newlyTriggeredFailures =
          [mkFailureEvent id size scale now] ∧
        (computeFailureState [id] [] size scale now).failureHistory =
          [mkFailureEvent id size scale now] ∧
        (mkFailureEvent id size scale now).isIrreversible = false) := by
  constructor
  · intro outs sizes
    unfold findFailurePoint
    rw [hnone]
  · intro size scale now
    have hnew : (computeFailureState [id] [] size scale now).newlyTriggeredFailures =
        [mkFailureEvent id size scale now] := by
      rw [newlyTriggered_eq]
      simp
    refine ⟨hnew, ?_, ?_⟩
    · rw [failureHistory_eq_append, hnew]
      rfl
    · show severityIs id .catastrophic = false
      unfold severityIs
      rw [hnone]

/-- Witness for C2 as amended, at the concrete unknown id. -/
theorem C2_catalog_miss_witness :
    findFailurePoint [] [] "UNKNOWN_FAILURE" = none ∧
    (computeFailureState ["UNKNOWN_FAILURE"] [] 1 1 0).newlyTriggeredFailures =
      [mkFailureEvent "UNKNOWN_FAILURE" 1 1 0] := by
  have hnone : FAILURE_MODES "UNKNOWN_FAILURE" = none := by
    simp [FAILURE_MODES, FAILURE_MODES_LIST, List.find?]
  exact ⟨(C2_catalog_miss_amended "UNKNOWN_FAILURE" hnone).1 [] [],
    ((C2_catalog_miss_amended "UNKNOWN_FAILURE" hnone).2 1 1 0).1⟩

/-- Claim C3, counterexample: computeFailureState reads Date.now() (the
explicit clock argument of the embedding), so two calls with identical
(currentFailureIds, previousFailureHistory, currentSize, currentScale) at
different clock readings return different FailureState values — the created
events differ in their timestamp field. -/
theorem C3_purity_counterexample :
    computeFailureState ["OXYGEN_DIFFUSION_FAILURE"] [] 1 1 0 ≠
      computeFailureState ["OXYGEN_DIFFUSION_FAILURE"] [] 1 1 1 := by
  have e0 : (computeFailureState ["OXYGEN_DIFFUSION_FAILURE"] [] 1 1 0).failureHistory =
      [mkFailureEvent "OXYGEN_DIFFUSION_FAILURE" 1 1 0] := by
    rw [failureHistory_eq_append, newlyTriggered_eq]
    simp
  have e1 : (computeFailureState ["OXYGEN_DIFFUSION_FAILURE"] [] 1 1 1).failureHistory =
      [mkFailureEvent "OXYGEN_DIFFUSION_FAILURE" 1 1 1] := by
    rw [failureHistory_eq_append, newlyTriggered_eq]
    simp
  intro h
  have h2 := congrArg FailureState.failureHistory h
  rw [e0, e1] at h2
  simp [mkFailureEvent] at h2

/-- Claim C3 as amended: computeFailureState never throws (it is a total
function) and is deterministic given the clock: two calls with identical
arguments agree on every field of every event except the timestamp, which
records the clock reading for newly created events. -/
theorem C3_determinism_up_to_clock (ids : List String) (hist : List FailureEvent)
    (size scale : ℝ) (now1 now2 : ℕ) :
    (computeFailureState ids hist size scale now1).clearTimestamps =
      (computeFailureState ids hist size scale now2).clearTimestamps := by
  have hact : ∀ now : ℕ,
      (computeFailureState ids hist size scale now).activeFailures.map
          FailureEvent.clearTimestamp =
        ((hist.filter (fun f => f.isActive || f.isIrreversible)).map FailureEvent.clearTimestamp)
          ++ (ids.filter (fun failureId =>
              !(((hist.filter (fun f => f.isActive)).map (fun f => f.failureId)).contains
                failureId))).map (fun failureId => mkFailureEvent failureId size scale 0) := by
    intro now
    rw [activeFailures_eq, failureHistory_eq_append, List.filter_append, List.map_append,
      newly_filter_active, newly_map_clear]
  have hhist : ∀ now : ℕ,
      (computeFailureState ids hist size scale now).failureHistory.map
          FailureEvent.clearTimestamp =
        (hist.map FailureEvent.clearTimestamp)
          ++ (ids.filter (fun failureId =>
              !(((hist.filter (fun f => f.isActive)).map (fun f => f.failureId)).contains
                failureId))).map (fun failureId => mkFailureEvent failureId size scale 0) := by
    intro now
    rw [failureHistory_eq_append, List.map_append, newly_map_clear]
  show FailureState.mk _ _ _ = FailureState.mk _ _ _
  rw [FailureState.mk.injEq]
  exact ⟨(hact now1).trans (hact now2).symm,
    (newly_map_clear ids hist size scale now1).trans
      (newly_map_clear ids hist size scale now2).symm,
    (hhist now1).trans (hhist now2).symm⟩

/-- Witness for C3 as amended, at concrete arguments and two clock values. -/
theorem C3_determinism_up_to_clock_witness :
    (computeFailureState ["OXYGEN_DIFFUSION_FAILURE"] [] 1 1 0).clearTimestamps =
      (computeFailureState ["OXYGEN_DIFFUSION_FAILURE"] [] 1 1 7).clearTimestamps :=
  C3_determinism_up_to_clock ["OXYGEN_DIFFUSION_FAILURE"] [] 1 1 0 7

/-- Claim C4, counterexample: under the defaults (o2 0.21, gravity 1, simple
mode, baseline 0.008 m) the respiration and exoskeleton failure points are
found at the same swept size, because in simple mode both proxies equal 1/s
and share the threshold 0.35 — so the respiration point does NOT occur at a
strictly smaller size than the exoskeleton point; the two ids appear at
exactly that common size. -/
theorem C4_ordering_counterexample :
    ∃ pr pe : FailurePoint,
      pr ∈ getAllFailurePoints 0.008 0.21 1 .simple ∧
      pe ∈ getAllFailurePoints 0.008 0.21 1 .simple ∧
      pr.failureId = "OXYGEN_DIFFUSION_FAILURE" ∧
      pe.failureId = "EXOSKELETON_BUCKLING_FAILURE" ∧
      pr.sizeAtFailure = pe.sizeAtFailure ∧
      (∀ q ∈ getAllFailurePoints 0.008 0.21 1 .simple,
        (q.failureId = "OXYGEN_DIFFUSION_FAILURE" → q.sizeAtFailure = pr.sizeAtFailure) ∧
        (q.failureId = "EXOSKELETON_BUCKLING_FAILURE" → q.sizeAtFailure = pe.sizeAtFailure)) := by
  obtain ⟨i0, i1, i2, hperm⟩ := getAllFailurePoints_default_perm
  refine ⟨{ failureId := "OXYGEN_DIFFUSION_FAILURE"
            sizeAtFailure := (generateSizeArray SIZE_RANGE.min SIZE_RANGE.max 100).getD i0 0
            subsystem := OXYGEN_DIFFUSION_FAILURE.subsystem
            severity := OXYGEN_DIFFUSION_FAILURE.severity
            title := OXYGEN_DIFFUSION_FAILURE.title },
          { failureId := "EXOSKELETON_BUCKLING_FAILURE"
            sizeAtFailure := (generateSizeArray SIZE_RANGE.min SIZE_RANGE.max 100).getD i0 0
            subsystem := EXOSKELETON_BUCKLING_FAILURE.subsystem
            severity := EXOSKELETON_BUCKLING_FAILURE.severity
            title := EXOSKELETON_BUCKLING_FAILURE.title },
          hperm.mem_iff.mpr (by simp), hperm.mem_iff.mpr (by simp), rfl, rfl, rfl, ?_⟩
  intro q hq
  have hq4 := hperm.mem_iff.mp hq
  simp only [List.mem_cons, List.not_mem_nil, or_false] at hq4
  rcases hq4 with rfl | rfl | rfl | rfl
  · exact ⟨fun _ => rfl, fun hbad => absurd hbad (by simp)⟩
  · exact ⟨fun hbad => absurd hbad (by simp), fun hbad => absurd hbad (by simp)⟩
  · exact ⟨fun hbad => absurd hbad (by simp), fun _ => rfl⟩
  · exact ⟨fun hbad => absurd hbad (by simp), fun hbad => absurd hbad (by simp)⟩

/-- Claim C4 as amended: with o2Fraction 0.21, gravity 1, simple mode and
baseline 0.008 m, getAllFailurePoints is sorted ascending by sizeAtFailure,
and the respiration failure point occurs at a size less than or equal to
(in fact equal to) the exoskeleton failure point. -/
theorem C4_ordering_amended :
    List.Pairwise (fun a c : FailurePoint => a.sizeAtFailure ≤ c.sizeAtFailure)
      (getAllFailurePoints 0.008 0.21 1 .simple) ∧
    ∃ pr pe : FailurePoint,
      pr ∈ getAllFailurePoints 0.008 0.21 1 .simple ∧
      pe ∈ getAllFailurePoints 0.008 0.21 1 .simple ∧
      pr.failureId = "OXYGEN_DIFFUSION_FAILURE" ∧
      pe.failureId = "EXOSKELETON_BUCKLING_FAILURE" ∧
      pr.sizeAtFailure ≤ pe.sizeAtFailure := by
  refine ⟨getAllFailurePoints_sorted 0.008 0.21 1 .simple, ?_⟩
  obtain ⟨i0, i1, i2, hperm⟩ := getAllFailurePoints_default_perm
  refine ⟨{ failureId := "OXYGEN_DIFFUSION_FAILURE"
            sizeAtFailure := (generateSizeArray SIZE_RANGE.min SIZE_RANGE.max 100).getD i0 0
            subsystem := OXYGEN_DIFFUSION_FAILURE.subsystem
            severity := OXYGEN_DIFFUSION_FAILURE.severity
            title := OXYGEN_DIFFUSION_FAILURE.title },
          { failureId := "EXOSKELETON_BUCKLING_FAILURE"
            sizeAtFailure := (generateSizeArray SIZE_RANGE.min SIZE_RANGE.max 100).getD i0 0
            subsystem := EXOSKELETON_BUCKLING_FAILURE.subsystem
            severity := EXOSKELETON_BUCKLING_FAILURE.severity
            title := EXOSKELETON_BUCKLING_FAILURE.title }, ?_, ?_, rfl, rfl, le_refl _⟩
  · exact hperm.mem_iff.mpr (by simp)
  · exact hperm.mem_iff.mpr (by simp)

/-- Claim C5, counterexample: the claim asserts some input makes
viabilityIndex negative, but the index is 100 times an exponential of a real
number and is therefore strictly positive for every input — no such input
exists. -/
theorem C5_viability_counterexample :
    ¬ ∃ input : ModelInput, (computeModel input).viabilityIndex < 0 := by
  rintro ⟨input, hlt⟩
  have hpos : 0 < (computeModel input).viabilityIndex := calcViabilityIndex_pos _
  linarith

/-- Claim C5 as amended: for every input the returned viabilityIndex is
strictly positive (it can approach 0 but never reaches or crosses it). -/
theorem C5_viability_positive (input : ModelInput) :
    0 < (computeModel input).viabilityIndex :=
  calcViabilityIndex_pos _

/-- Witness for C5 as amended at a concrete input. -/
theorem C5_viability_positive_witness :
    0 < (computeModel ⟨1, 0.008, 0.21, 1, .simple⟩).viabilityIndex :=
  C5_viability_positive ⟨1, 0.008, 0.21, 1, .simple⟩

/-- Claim C6 (proxy monotonicity): holding baseline, o2, gravity and mode
fixed (all positive, mode arbitrary), a strictly larger body length in
[0.005, 3] gives strictly smaller respiration, hydraulics, exoskeleton and
locomotion proxies. -/
theorem C6_proxy_monotonicity (baseline o2 g L1 L2 : ℝ) (mode : ModelMode)
    (hbase : 0 < baseline) (ho : 0 < o2) (hg : 0 < g)
    (hL1 : 0.005 ≤ L1) (h12 : L1 < L2) (hL2 : L2 ≤ 3) :
    (computeModel ⟨L2, baseline, o2, g, mode⟩).proxies.respiration <
      (computeModel ⟨L1, baseline, o2, g, mode⟩).proxies.respiration ∧
    (computeModel ⟨L2, baseline, o2, g, mode⟩).proxies.hydraulics <
      (computeModel ⟨L1, baseline, o2, g, mode⟩).proxies.hydraulics ∧
    (computeModel ⟨L2, baseline, o2, g, mode⟩).proxies.exoskeleton <
      (computeModel ⟨L1, baseline, o2, g, mode⟩).proxies.exoskeleton ∧
    (computeModel ⟨L2, baseline, o2, g, mode⟩).proxies.locomotion <
      (computeModel ⟨L1, baseline, o2, g, mode⟩).proxies.locomotion := by
  have h1pos : 0 < L1 := lt_of_lt_of_le (by norm_num) hL1
  have hs1 : 0 < L1 / baseline := div_pos h1pos hbase
  have hs12 : L1 / baseline < L2 / baseline := div_lt_div_of_pos_right h12 hbase
  refine ⟨?_, ?_, ?_, ?_⟩
  · exact resp_mono o2 ho _ _ hs1 hs12 mode
  · exact hyd_mono g _ _ hg hs1 hs12 mode
  · exact exo_mono g _ _ hg hs1 hs12 mode
  · exact loco_mono g _ _ hg hs1 hs12 mode

/-- Witness for C6 at concrete lengths 1 m and 2 m, simple mode. -/
theorem C6_proxy_monotonicity_witness :
    (computeModel ⟨2, 1, 0.21, 1, .simple⟩).proxies.respiration <
      (computeModel ⟨1, 1, 0.21, 1, .simple⟩).proxies.respiration ∧
    (computeModel ⟨2, 1, 0.21, 1, .simple⟩).proxies.hydraulics <
      (computeModel ⟨1, 1, 0.21, 1, .simple⟩).proxies.hydraulics ∧
    (computeModel ⟨2, 1, 0.21, 1, .simple⟩).proxies.exoskeleton <
      (computeModel ⟨1, 1, 0.21, 1, .simple⟩).proxies.exoskeleton ∧
    (computeModel ⟨2, 1, 0.21, 1, .simple⟩).proxies.locomotion <
      (computeModel ⟨1, 1, 0.21, 1, .simple⟩).proxies.locomotion :=
  C6_proxy_monotonicity 1 0.21 1 1 2 .simple (by norm_num) (by norm_num) (by norm_num)
    (by norm_num) (by norm_num) (by norm_num)

/-- Claim C7 (simple-mode health clamping): proxyToHealth in simple mode is
always within [0, 100]; it is exactly 0 for proxy at most 0.3 and exactly
100 for proxy at least 1. -/
theorem C7_health_clamping (p : ℝ) :
    (0 ≤ proxyToHealth p .simple ∧ proxyToHealth p .simple ≤ 100) ∧
    (p ≤ 0.3 → proxyToHealth p .simple = 0) ∧
    (1 ≤ p → proxyToHealth p .simple = 100) := by
  rw [proxyToHealth_simple_eq]
  refine ⟨⟨?_, ?_⟩, ?_, ?_⟩
  · have h0 : (0:ℝ) ≤ Max.max 0 (Min.min 1 ((Max.max 0 (Min.min 1.2 p) - 0.3) / (1 - 0.3))) :=
      le_max_left _ _
    linarith
  · have h1 : Max.max (0:ℝ) (Min.min 1 ((Max.max 0 (Min.min 1.2 p) - 0.3) / (1 - 0.3))) ≤ 1 :=
      max_le (by norm_num) (min_le_left _ _)
    linarith
  · intro hp
    have hmin : Min.min (1.2:ℝ) p = p := min_eq_right (by linarith)
    rw [hmin]
    have hle : Max.max (0:ℝ) p ≤ 0.3 := max_le (by norm_num) hp
    have hnorm : (Max.max (0:ℝ) p - 0.3) / (1 - 0.3) ≤ 0 :=
      div_nonpos_of_nonpos_of_nonneg (by linarith) (by norm_num)
    rw [min_eq_right (by linarith : (Max.max (0:ℝ) p - 0.3) / (1 - 0.3) ≤ 1),
      max_eq_left hnorm]
    ring
  · intro hp
    rcases le_total p 1.2 with h | h
    · have hmin : Min.min (1.2:ℝ) p = p := min_eq_right h
      rw [hmin, max_eq_right (by linarith : (0:ℝ) ≤ p)]
      have hnorm : (1:ℝ) ≤ (p - 0.3) / (1 - 0.3) := by
        rw [one_le_div (by norm_num)]
        linarith
      rw [min_eq_left hnorm, max_eq_right (by norm_num : (0:ℝ) ≤ 1)]
      ring
    · have hmin : Min.min (1.2:ℝ) p = 1.2 := min_eq_left h
      rw [hmin, max_eq_right (by norm_num : (0:ℝ) ≤ 1.2)]
      have hnorm : (1:ℝ) ≤ ((1.2:ℝ) - 0.3) / (1 - 0.3) := by norm_num
      rw [min_eq_left hnorm, max_eq_right (by norm_num : (0:ℝ) ≤ 1)]
      ring

/-- Witness for C7 at concrete proxies 0.2 and 1.1. -/
theorem C7_health_clamping_witness :
    proxyToHealth 0.2 .simple = 0 ∧ proxyToHealth 1.1 .simple = 100 :=
  ⟨(C7_health_clamping 0.2).2.1 (by norm_num), (C7_health_clamping 1.1).2.2 (by norm_num)⟩

/-- Claim C8 (append-only history): the returned history extends the prior
history — it is at least as long, and each prior event is still present at
its position with the same failureId, triggeredAtSize, triggeredAtScale and
timestamp; consequently history length is non-decreasing across a session. -/
theorem C8_append_only (ids : List String) (hist : List FailureEvent)
    (size scale : ℝ) (now : ℕ) :
    hist.length ≤ (computeFailureState ids hist size scale now).failureHistory.length ∧
    (∀ (i : ℕ) (e : FailureEvent), hist[i]? = some e →
      ∃ e2, (computeFailureState ids hist size scale now).failureHistory[i]? = some e2 ∧
        e2.failureId = e.failureId ∧ e2.triggeredAtSize = e.triggeredAtSize ∧
        e2.triggeredAtScale = e.triggeredAtScale ∧ e2.timestamp = e.timestamp) ∧
    (∀ steps : List EvalInput, hist.length ≤ (runFailureHistory hist steps).length) := by
  refine ⟨?_, ?_, ?_⟩
  · rw [failureHistory_eq_append, List.length_append]
    exact Nat.le_add_right _ _
  · intro i e h
    refine ⟨e, ?_, rfl, rfl, rfl, rfl⟩
    rw [failureHistory_eq_append, List.getElem?_append_left (List.getElem?_eq_some_iff.mp h).1]
    exact h
  · exact fun steps => length_le_run steps hist

/-- Witness for C8 at a concrete one-event history. -/
theorem C8_append_only_witness :
    ∃ e2, (computeFailureState [] [mkFailureEvent "HYDRAULIC_EXTENSION_FAILURE" 1 1 3]
        2 2 9).failureHistory[0]? = some e2 ∧
      e2.failureId = (mkFailureEvent "HYDRAULIC_EXTENSION_FAILURE" 1 1 3).failureId ∧
      e2.triggeredAtSize = (mkFailureEvent "HYDRAULIC_EXTENSION_FAILURE" 1 1 3).triggeredAtSize ∧
      e2.triggeredAtScale = (mkFailureEvent "HYDRAULIC_EXTENSION_FAILURE" 1 1 3).triggeredAtScale ∧
      e2.timestamp = (mkFailureEvent "HYDRAULIC_EXTENSION_FAILURE" 1 1 3).timestamp :=
  (C8_append_only [] [mkFailureEvent "HYDRAULIC_EXTENSION_FAILURE" 1 1 3] 2 2 9).2.1 0
    (mkFailureEvent "HYDRAULIC_EXTENSION_FAILURE" 1 1 3) rfl

/-- Claim C9 (no soft mode, soft-resolution branch unreachable): the shipped
catalog has two catastrophic and two hard entries and no soft one; hence in
any session starting from the empty history (with any id lists, not only
those produced by detectFailures) no event is ever resolved and every event
stays active in every returned history. -/
theorem C9_no_soft_mode :
    (OXYGEN_DIFFUSION_FAILURE.severity = .catastrophic ∧
      HYDRAULIC_EXTENSION_FAILURE.severity = .hard ∧
      EXOSKELETON_BUCKLING_FAILURE.severity = .catastrophic ∧
      LOCOMOTION_ENERGY_FAILURE.severity = .hard) ∧
    (∀ (id : String) (fm : FailureModeDefinition),
        FAILURE_MODES id = some fm → fm.severity ≠ .soft) ∧
    (∀ (steps : List EvalInput) (e : FailureEvent),
        e ∈ runFailureHistory [] steps → e.isActive = true ∧ e.isResolved = false) := by
  refine ⟨⟨rfl, rfl, rfl, rfl⟩, severity_ne_soft, ?_⟩
  intro steps e he
  refine run_invariant steps [] ?_ e he
  intro f hf
  simp at hf

/-- Witness for C9: the event created by a one-step session is in the run
history, active and unresolved. -/
theorem C9_no_soft_mode_witness :
    mkFailureEvent "HYDRAULIC_EXTENSION_FAILURE" 1 1 0 ∈
      runFailureHistory []
        [{ ids := ["HYDRAULIC_EXTENSION_FAILURE"], size := 1, scale := 1, now := 0 }] ∧
    (mkFailureEvent "HYDRAULIC_EXTENSION_FAILURE" 1 1 0).isActive = true ∧
    (mkFailureEvent "HYDRAULIC_EXTENSION_FAILURE" 1 1 0).isResolved = false := by
  have hmem : mkFailureEvent "HYDRAULIC_EXTENSION_FAILURE" 1 1 0 ∈
      runFailureHistory []
        [{ ids := ["HYDRAULIC_EXTENSION_FAILURE"], size := 1, scale := 1, now := 0 }] := by
    rw [runFailureHistory_cons, runFailureHistory_nil, failureHistory_eq_append,
      newlyTriggered_eq]
    simp
  exact ⟨hmem, C9_no_soft_mode.2.2 _ _ hmem⟩

/-- Claim C10 (degenerate size array): in the IEEE model of JavaScript
arithmetic, generateSizeArray(min, max, 1) with 0 < min < max divides a
positive number by zero (count - 1 == 0), giving Infinity; 0 * Infinity is
NaN, which propagates through the exponent, so the single returned element
is NaN, not min. -/
theorem C10_degenerate_size_array (min max : ℝ) (h0 : 0 < min) (hlt : min < max) :
    generateSizeArrayJS min max 1 = [JSNum.nan] ∧
    generateSizeArrayJS min max 1 ≠ [JSNum.finite min] := by
  have hmax : 0 < max := h0.trans hlt
  have e1 : JSNum.log10 (JSNum.finite min) = JSNum.finite (Real.logb 10 min) := by
    simp [JSNum.log10, h0]
  have e2 : JSNum.log10 (JSNum.finite max) = JSNum.finite (Real.logb 10 max) := by
    simp [JSNum.log10, hmax]
  have hlog : Real.logb 10 min < Real.logb 10 max := Real.logb_lt_logb (by norm_num) h0 hlt
  have hne : ¬ (Real.logb 10 max - Real.logb 10 min = 0) := by linarith
  have hmain : generateSizeArrayJS min max 1 = [JSNum.nan] := by
    unfold generateSizeArrayJS
    rw [e1, e2]
    have hr : List.range 1 = [0] := rfl
    rw [hr, List.map_cons, List.map_nil]
    have e3 : JSNum.sub (JSNum.finite (Real.logb 10 max)) (JSNum.finite (Real.logb 10 min)) =
        JSNum.finite (Real.logb 10 max - Real.logb 10 min) := rfl
    rw [e3]
    have h10 : (((1:ℕ):ℝ) - 1) = 0 := by norm_num
    have e4 : JSNum.div (JSNum.finite (Real.logb 10 max - Real.logb 10 min))
        (JSNum.finite (((1:ℕ) : ℝ) - 1)) = JSNum.inf := by
      rw [h10]
      simp [JSNum.div, hne, hlog]
    rw [e4]
    have e5 : JSNum.mul (JSNum.finite ((0:ℕ) : ℝ)) JSNum.inf = JSNum.nan := by
      simp [JSNum.mul]
    rw [e5]
    rfl
  refine ⟨hmain, ?_⟩
  rw [hmain]
  simp

/-- Witness for C10 at min = 1, max = 10. -/
theorem C10_degenerate_size_array_witness :
    generateSizeArrayJS 1 10 1 = [JSNum.nan] ∧
    generateSizeArrayJS 1 10 1 ≠ [JSNum.finite 1] :=
  C10_degenerate_size_array 1 10 (by norm_num) (by norm_num)

end Spider
